import Mathlib

/-!
Reserva de estacionamiento: the booking back end `backend/server.js`

A shallow embedding of the three request handlers of `server.js`
(`GET /reservas`, `POST /reservas`, `DELETE /reservas/:id`), of the overlap
test `hayCruce` and of the JSON file they keep, followed by the properties
proved about them.

Modelling conventions.

* The state is the content of `reservas.json`, as the list of records that
  `JSON.parse` returns for it.  Reading and writing the file are assumed to
  succeed (the `catch` branches of `leerReservas` / `guardarReservas` are not
  modelled), and every handler runs from its read to its write without another
  request in between.
* A request field is a `JSVal`: what `express.json()` (or the query parser)
  hands to the handler.  JavaScript numbers are `JSNum`; a finite double is
  kept as the rational it denotes and `+0` / `-0` are one value (the code
  never distinguishes them).
* The two string readers of the JavaScript runtime the handlers call,
  `Number(string)` and `Date.parse(string)`, are the fields of `Runtime`; every
  general theorem holds for every runtime.
* A stored `start` / `end` is the time value (milliseconds since the epoch)
  whose `toISOString()` text the file holds: `new Date(text)` reads that text
  back to the same time value.
* `Date.now()` is an input of the create handler (`now`).
* The Slack notification happens after the state change, cannot fail the
  request and is not modelled.
-/

namespace Estacionamiento

/-! ## JavaScript values -/

/-- A JavaScript Number: `NaN`, an infinity, or a finite value. -/
inductive JSNum where
  | nan
  | inf (negativo : Bool)
  | fin (q : ℚ)
  deriving DecidableEq

/-- A value of a request field.  `undefined` is an absent key; `compound` is an
array or a plain object, kept as the string its `ToPrimitive` conversion
yields (the `join` of an array, `[object Object]` for a plain object). -/
inductive JSVal where
  | undefined
  | null
  | bool (b : Bool)
  | num (n : JSNum)
  | str (s : String)
  | compound (prim : String)
  deriving DecidableEq

/-- The string readers of the JavaScript runtime used by the handlers:
`Number(s)` on a string and `Date.parse(s)`. -/
structure Runtime where
  stringToNumber : String → JSNum
  dateParse : String → JSNum

/-- Truthiness of a number: `0` and `NaN` are falsy. -/
def JSNum.truthy : JSNum → Bool
  | .nan => false
  | .inf _ => true
  | .fin q => decide (q ≠ 0)

/-- JavaScript truthiness (`ToBoolean`), as used by `!x` and `if (x)`. -/
def truthy : JSVal → Bool
  | .undefined => false
  | .null => false
  | .bool b => b
  | .num n => n.truthy
  | .str s => decide (s ≠ "")
  | .compound _ => true

/-- The conversion `Number(v)` (`ToNumber`). -/
def toNumber (rt : Runtime) : JSVal → JSNum
  | .undefined => .nan
  | .null => .fin 0
  | .bool b => if b then .fin 1 else .fin 0
  | .num n => n
  | .str s => rt.stringToNumber s
  | .compound prim => rt.stringToNumber prim

/-- The operation `TimeClip`: the time value of a Date made from a number, `none` for
an Invalid Date.  A finite number beyond 8.64e15 ms is invalid; otherwise it is
truncated toward zero. -/
def timeClip : JSNum → Option Int
  | .nan => none
  | .inf _ => none
  | .fin q => if |q| ≤ 8640000000000000 then some (q.num.tdiv q.den) else none

/-- The time value of `new Date(v)`: a string (or the primitive of an array or
object) is parsed, anything else is converted with `ToNumber`. -/
def newDate (rt : Runtime) : JSVal → Option Int
  | .str s => timeClip (rt.dateParse s)
  | .compound prim => timeClip (rt.dateParse prim)
  | v => timeClip (toNumber rt v)

/-- Equality of numbers under `===`: `NaN` equals nothing. -/
def JSNum.strictEq : JSNum → JSNum → Bool
  | .nan, _ => false
  | _, .nan => false
  | a, b => decide (a = b)

/-- The operator `===`.  Values of different types are never equal; two compound
values are different objects. -/
def strictEq : JSVal → JSVal → Bool
  | .undefined, .undefined => true
  | .null, .null => true
  | .bool a, .bool b => decide (a = b)
  | .num a, .num b => a.strictEq b
  | .str a, .str b => decide (a = b)
  | _, _ => false

/-- White space and line terminators removed by `String.prototype.trim`. -/
def esEspacio (c : Char) : Bool :=
  decide (c.toNat ∈ [0x09, 0x0A, 0x0B, 0x0C, 0x0D, 0x20, 0xA0, 0x1680, 0x2028, 0x2029,
    0x202F, 0x205F, 0x3000, 0xFEFF]) || (decide (0x2000 ≤ c.toNat) && decide (c.toNat ≤ 0x200A))

/-- The method `String.prototype.trim`. -/
def trim (s : String) : String :=
  String.mk ((s.toList.dropWhile esEspacio).reverse.dropWhile esEspacio).reverse

/-! ## Records and the JSON file -/

/-- A reservation record.  `start` and `end_` are the time values of the stored
ISO strings. -/
structure Reserva where
  id : String
  title : String
  start : Int
  end_ : Int
  estacionamiento : JSVal
  deriving DecidableEq

/-- What `JSON.stringify` followed by `JSON.parse` makes of a property value:
`NaN` and the infinities are written as `null`. -/
def jsonValor : JSVal → JSVal
  | .num .nan => .null
  | .num (.inf _) => .null
  | v => v

/-- A record after a round trip through the JSON file (or the JSON body of a
response). -/
def toJSON (r : Reserva) : Reserva :=
  { r with estacionamiento := jsonValor r.estacionamiento }

/-- The function `leerReservas`: the records of the file. -/
def leerReservas (db : List Reserva) : List Reserva := db

/-- The function `guardarReservas`: the file after `JSON.stringify(data)` is written. -/
def guardarReservas (data : List Reserva) : List Reserva := data.map toJSON

/-! ## The overlap test -/

/-- The function `hayCruce(nueva, existentes)`. -/
def hayCruce (nueva : Reserva) (existentes : List Reserva) : Bool :=
  existentes.any fun r =>
    strictEq r.estacionamiento nueva.estacionamiento &&
    decide (nueva.start < r.end_) &&
    decide (nueva.end_ > r.start)

/-! ## The handlers -/

/-- The fields the create handler takes from `req.body`. -/
structure Body where
  title : JSVal
  start : JSVal
  end_ : JSVal
  estacionamiento : JSVal

/-- What a handler sends back. -/
inductive Respuesta where
  | error (status : Nat) (mensaje : String) -- res.status(status).json of an error message
  | creada (nueva : Reserva) -- res.status(201).json(nueva)
  | lista (reservas : List Reserva) -- res.json(reservas), status 200
  | sinContenido -- res.sendStatus(204)
  | excepcion -- the handler threw a TypeError and sends nothing
  deriving DecidableEq

/-- The HTTP status of a reply, when one is sent. -/
def Respuesta.status : Respuesta → Option Nat
  | .error s _ => some s
  | .creada _ => some 201
  | .lista _ => some 200
  | .sinContenido => some 204
  | .excepcion => none

/-- The handler `app.get('/reservas')`; `query` is `req.query.estacionamiento`. -/
def getReservas (rt : Runtime) (query : JSVal) (db : List Reserva) : Respuesta :=
  let estacionamiento := toNumber rt query
  let reservas := leerReservas db
  if estacionamiento.truthy then
    .lista (reservas.filter fun r => strictEq r.estacionamiento (.num estacionamiento))
  else
    .lista reservas

/-- The object `nueva` the create handler builds from a string `title`, the two
Dates and `Number(estacionamiento)`; `now` is the reading of `Date.now()`. -/
def nuevaReserva (rt : Runtime) (now : Nat) (title : String) (inicio fin : Int)
    (estacionamiento : JSVal) : Reserva :=
  { id := toString now
    title := trim title
    start := inicio
    end_ := fin
    estacionamiento := .num (toNumber rt estacionamiento) }

/-- The handler `app.post('/reservas')`: the reply and the file afterwards.
`title.trim()` throws when `title` is not a string. -/
def postReservas (rt : Runtime) (now : Nat) (body : Body) (db : List Reserva) :
    Respuesta × List Reserva :=
  if !truthy body.title || !truthy body.start || !truthy body.end_
      || !truthy body.estacionamiento then
    (.error 400 "Datos incompletos", db)
  else
    match newDate rt body.start, newDate rt body.end_ with
    | some inicio, some fin =>
      if inicio ≥ fin then
        (.error 400 "Horario inválido", db)
      else
        let reservas := leerReservas db
        match body.title with
        | .str title =>
          let nueva := nuevaReserva rt now title inicio fin body.estacionamiento
          if hayCruce nueva reservas then
            (.error 409 "Horario ocupado", db)
          else
            (.creada (toJSON nueva), guardarReservas (reservas ++ [nueva]))
        | _ => (.excepcion, db)
    | _, _ => (.error 400 "Horario inválido", db)

/-- The handler `app.delete('/reservas/:id')`; `id` is `req.params.id`. -/
def deleteReservas (id : String) (db : List Reserva) : Respuesta × List Reserva :=
  let reservas := leerReservas db
  let nuevas := reservas.filter fun r => r.id != id
  if reservas.length = nuevas.length then
    (.error 404 "Reserva no encontrada", db)
  else
    (.sinContenido, guardarReservas nuevas)

/-- The files reachable from the empty one by create and cancel requests. -/
inductive Alcanzable (rt : Runtime) : List Reserva → Prop where
  | vacio : Alcanzable rt []
  | post (now : Nat) (body : Body) (db : List Reserva) :
      Alcanzable rt db → Alcanzable rt (postReservas rt now body db).2
  | delete (id : String) (db : List Reserva) :
      Alcanzable rt db → Alcanzable rt (deleteReservas id db).2

/-! ## Sample data for the examples -/

/-- A runtime for the examples.  On the strings `0`, `1`, `2`, `-1`, `abc` and on
the five timestamps listed it returns what `Number` and `Date.parse` return in
ECMAScript; no other string is used in the examples. -/
def ejemploRuntime : Runtime where
  stringToNumber := fun s =>
    if s = "0" then .fin 0
    else if s = "1" then .fin 1
    else if s = "2" then .fin 2
    else if s = "-1" then .fin (-1)
    else .nan
  dateParse := fun s =>
    if s = "2024-01-01T10:00:00Z" then .fin 1704103200000
    else if s = "2024-01-01T10:30:00Z" then .fin 1704105000000
    else if s = "2024-01-01T10:45:00Z" then .fin 1704105900000
    else if s = "2024-01-01T11:00:00Z" then .fin 1704106800000
    else if s = "2024-01-01T12:00:00Z" then .fin 1704110400000
    else .nan

/-- A request body with a string title and ISO strings for the schedule. -/
def cuerpo (title start end_ : String) (estacionamiento : JSVal) : Body :=
  { title := .str title, start := .str start, end_ := .str end_,
    estacionamiento := estacionamiento }

/-- The record of Ana: spot 1 from 10:00 to 11:00 on 2024-01-01 (UTC), created
when the clock read 1704067200000. -/
def reservaAna : Reserva :=
  { id := "1704067200000", title := "Ana", start := 1704103200000, end_ := 1704106800000,
    estacionamiento := .num (.fin 1) }

/-- The overlap condition of two records as half-open intervals. -/
def seCruzan (a b : Reserva) : Prop := a.start < b.end_ ∧ b.start < a.end_

instance (a b : Reserva) : Decidable (seCruzan a b) := by
  unfold seCruzan
  infer_instance

/-- The invariant as the specification words it: no two records of the file with
the same `estacionamiento` cross. -/
def SinCruces (db : List Reserva) : Prop :=
  db.Pairwise fun a b => a.estacionamiento = b.estacionamiento → ¬ seCruzan a b

/-- A record made from the body `abc` as resource: stored with `null`. -/
def reservaNula (id title : String) : Reserva :=
  { id := id, title := title, start := 1704103200000, end_ := 1704106800000,
    estacionamiento := .null }

/-- The record of Bea: spot 1 from 11:00 to 12:00, right after Ana. -/
def reservaBea : Reserva :=
  { id := "1704067200500", title := "Bea", start := 1704106800000, end_ := 1704110400000,
    estacionamiento := .num (.fin 1) }

/-! ## Basic facts -/

theorem JSNum.strictEq_comm_num (a b : JSNum) : a.strictEq b = b.strictEq a := by
  cases a <;> cases b <;> simp [JSNum.strictEq, eq_comm]

theorem strictEq_comm (a b : JSVal) : strictEq a b = strictEq b a := by
  cases a <;> cases b <;> simp [strictEq, eq_comm, JSNum.strictEq_comm_num]

theorem JSNum.eq_of_strictEq_num {a b : JSNum} (h : a.strictEq b = true) : a = b := by
  cases a <;> cases b <;> simp_all [JSNum.strictEq]

theorem eq_of_strictEq {a b : JSVal} (h : strictEq a b = true) : a = b := by
  cases a <;> cases b <;> simp_all [strictEq]
  exact JSNum.eq_of_strictEq_num h

theorem strictEq_fin (q : ℚ) : strictEq (.num (.fin q)) (.num (.fin q)) = true := by
  simp [strictEq, JSNum.strictEq]

theorem hayCruce_eq_true_iff (nueva : Reserva) (existentes : List Reserva) :
    hayCruce nueva existentes = true ↔
      ∃ r ∈ existentes, strictEq r.estacionamiento nueva.estacionamiento = true ∧
        nueva.start < r.end_ ∧ nueva.end_ > r.start := by
  simp [hayCruce, List.any_eq_true, and_assoc]

theorem hayCruce_eq_false_iff (nueva : Reserva) (existentes : List Reserva) :
    hayCruce nueva existentes = false ↔
      ∀ r ∈ existentes, ¬ (strictEq r.estacionamiento nueva.estacionamiento = true ∧
        nueva.start < r.end_ ∧ nueva.end_ > r.start) := by
  rw [← Bool.not_eq_true, hayCruce_eq_true_iff]
  push_neg
  rfl

/-! ## The create handler, case by case -/

theorem post_incompleto (rt : Runtime) (now : Nat) (body : Body) (db : List Reserva)
    (h : truthy body.title = false ∨ truthy body.start = false ∨ truthy body.end_ = false ∨
      truthy body.estacionamiento = false) :
    postReservas rt now body db = (.error 400 "Datos incompletos", db) := by
  unfold postReservas
  rw [if_pos]
  rcases h with h | h | h | h <;> simp [h]

theorem post_completo (rt : Runtime) (now : Nat) (body : Body) (db : List Reserva)
    (h1 : truthy body.title = true) (h2 : truthy body.start = true)
    (h3 : truthy body.end_ = true) (h4 : truthy body.estacionamiento = true) :
    postReservas rt now body db =
      match newDate rt body.start, newDate rt body.end_ with
      | some inicio, some fin =>
        if inicio ≥ fin then
          (.error 400 "Horario inválido", db)
        else
          match body.title with
          | .str title =>
            if hayCruce (nuevaReserva rt now title inicio fin body.estacionamiento) db then
              (.error 409 "Horario ocupado", db)
            else
              (.creada (toJSON (nuevaReserva rt now title inicio fin body.estacionamiento)),
               guardarReservas
                (db ++ [nuevaReserva rt now title inicio fin body.estacionamiento]))
          | _ => (.excepcion, db)
      | _, _ => (.error 400 "Horario inválido", db) := by
  unfold postReservas
  rw [if_neg (by simp [h1, h2, h3, h4])]
  rfl

theorem post_horario_invalido (rt : Runtime) (now : Nat) (body : Body) (db : List Reserva)
    (h1 : truthy body.title = true) (h2 : truthy body.start = true)
    (h3 : truthy body.end_ = true) (h4 : truthy body.estacionamiento = true)
    (h : newDate rt body.start = none ∨ newDate rt body.end_ = none ∨
      ∃ inicio fin, newDate rt body.start = some inicio ∧ newDate rt body.end_ = some fin ∧
        fin ≤ inicio) :
    postReservas rt now body db = (.error 400 "Horario inválido", db) := by
  rw [post_completo rt now body db h1 h2 h3 h4]
  rcases h with h | h | ⟨i, f, hi, hf, hle⟩
  · rw [h]
  · rw [h]
    cases newDate rt body.start <;> rfl
  · rw [hi, hf]
    simp [hle]

theorem post_horario_valido (rt : Runtime) (now : Nat) (body : Body) (db : List Reserva)
    (inicio fin : Int)
    (h1 : truthy body.title = true) (h2 : truthy body.start = true)
    (h3 : truthy body.end_ = true) (h4 : truthy body.estacionamiento = true)
    (hi : newDate rt body.start = some inicio) (hf : newDate rt body.end_ = some fin)
    (hlt : inicio < fin) :
    postReservas rt now body db =
      match body.title with
      | .str title =>
        if hayCruce (nuevaReserva rt now title inicio fin body.estacionamiento) db then
          (.error 409 "Horario ocupado", db)
        else
          (.creada (toJSON (nuevaReserva rt now title inicio fin body.estacionamiento)),
           guardarReservas (db ++ [nuevaReserva rt now title inicio fin body.estacionamiento]))
      | _ => (.excepcion, db) := by
  rw [post_completo rt now body db h1 h2 h3 h4, hi, hf]
  simp only [ge_iff_le, not_le.mpr hlt, if_false]

theorem post_valido (rt : Runtime) (now : Nat) (body : Body) (db : List Reserva)
    (title : String) (inicio fin : Int)
    (h1 : body.title = .str title) (h1t : title ≠ "") (h2 : truthy body.start = true)
    (h3 : truthy body.end_ = true) (h4 : truthy body.estacionamiento = true)
    (hi : newDate rt body.start = some inicio) (hf : newDate rt body.end_ = some fin)
    (hlt : inicio < fin) :
    postReservas rt now body db =
      if hayCruce (nuevaReserva rt now title inicio fin body.estacionamiento) db then
        (.error 409 "Horario ocupado", db)
      else
        (.creada (toJSON (nuevaReserva rt now title inicio fin body.estacionamiento)),
         guardarReservas (db ++ [nuevaReserva rt now title inicio fin body.estacionamiento])) := by
  rw [post_horario_valido rt now body db inicio fin (by simp [h1, truthy, h1t]) h2 h3 h4 hi hf hlt,
    h1]

/-- Every run of the create handler ends in one of five ways. -/
theorem post_casos (rt : Runtime) (now : Nat) (body : Body) (db : List Reserva) :
    ((truthy body.title = false ∨ truthy body.start = false ∨ truthy body.end_ = false ∨
        truthy body.estacionamiento = false) ∧
      postReservas rt now body db = (.error 400 "Datos incompletos", db)) ∨
    ((truthy body.title = true ∧ truthy body.start = true ∧ truthy body.end_ = true ∧
        truthy body.estacionamiento = true) ∧
      ((newDate rt body.start = none ∨ newDate rt body.end_ = none ∨
          ∃ inicio fin, newDate rt body.start = some inicio ∧
            newDate rt body.end_ = some fin ∧ fin ≤ inicio) ∧
        postReservas rt now body db = (.error 400 "Horario inválido", db) ∨
       ∃ inicio fin, newDate rt body.start = some inicio ∧
          newDate rt body.end_ = some fin ∧ inicio < fin ∧
          (((∀ title, body.title ≠ .str title) ∧
              postReservas rt now body db = (.excepcion, db)) ∨
           ∃ title, body.title = .str title ∧
             ((hayCruce (nuevaReserva rt now title inicio fin body.estacionamiento) db = true ∧
                 postReservas rt now body db = (.error 409 "Horario ocupado", db)) ∨
              (hayCruce (nuevaReserva rt now title inicio fin body.estacionamiento) db = false ∧
                 postReservas rt now body db =
                  (.creada (toJSON (nuevaReserva rt now title inicio fin body.estacionamiento)),
                   guardarReservas
                    (db ++ [nuevaReserva rt now title inicio fin body.estacionamiento]))))))) := by
  by_cases h1 : truthy body.title = true
  swap
  · exact Or.inl ⟨Or.inl (by simpa using h1), post_incompleto rt now body db (Or.inl (by simpa using h1))⟩
  by_cases h2 : truthy body.start = true
  swap
  · exact Or.inl ⟨Or.inr (Or.inl (by simpa using h2)),
      post_incompleto rt now body db (Or.inr (Or.inl (by simpa using h2)))⟩
  by_cases h3 : truthy body.end_ = true
  swap
  · exact Or.inl ⟨Or.inr (Or.inr (Or.inl (by simpa using h3))),
      post_incompleto rt now body db (Or.inr (Or.inr (Or.inl (by simpa using h3))))⟩
  by_cases h4 : truthy body.estacionamiento = true
  swap
  · exact Or.inl ⟨Or.inr (Or.inr (Or.inr (by simpa using h4))),
      post_incompleto rt now body db (Or.inr (Or.inr (Or.inr (by simpa using h4))))⟩
  refine Or.inr ⟨⟨h1, h2, h3, h4⟩, ?_⟩
  cases hi : newDate rt body.start with
  | none => exact Or.inl ⟨Or.inl rfl, post_horario_invalido rt now body db h1 h2 h3 h4 (Or.inl hi)⟩
  | some inicio =>
    cases hf : newDate rt body.end_ with
    | none =>
      exact Or.inl ⟨Or.inr (Or.inl rfl),
        post_horario_invalido rt now body db h1 h2 h3 h4 (Or.inr (Or.inl hf))⟩
    | some fin =>
      by_cases hlt : inicio < fin
      swap
      · exact Or.inl ⟨Or.inr (Or.inr ⟨inicio, fin, rfl, rfl, not_lt.mp hlt⟩),
          post_horario_invalido rt now body db h1 h2 h3 h4
            (Or.inr (Or.inr ⟨inicio, fin, hi, hf, not_lt.mp hlt⟩))⟩
      refine Or.inr ⟨inicio, fin, rfl, rfl, hlt, ?_⟩
      have key := post_horario_valido rt now body db inicio fin h1 h2 h3 h4 hi hf hlt
      cases ht : body.title with
      | str title =>
        right
        refine ⟨title, rfl, ?_⟩
        rw [ht] at key
        cases hc : hayCruce (nuevaReserva rt now title inicio fin body.estacionamiento) db with
        | true => exact Or.inl ⟨rfl, by rw [key]; simp [hc]⟩
        | false => exact Or.inr ⟨rfl, by rw [key]; simp [hc]⟩
      | undefined => left; rw [ht] at key; exact ⟨by simp, key⟩
      | null => left; rw [ht] at key; exact ⟨by simp, key⟩
      | bool b => left; rw [ht] at key; exact ⟨by simp, key⟩
      | num n => left; rw [ht] at key; exact ⟨by simp, key⟩
      | compound p => left; rw [ht] at key; exact ⟨by simp, key⟩

/-! ## Invariants of the reachable files -/

theorem jsonValor_idem (v : JSVal) : jsonValor (jsonValor v) = jsonValor v := by
  rcases v with _ | _ | _ | n | _ | _ <;> try rfl
  cases n <;> rfl

theorem toJSON_idem (r : Reserva) : toJSON (toJSON r) = toJSON r := by
  simp [toJSON, jsonValor_idem]

theorem guardarReservas_eq_self {l : List Reserva} (h : ∀ r ∈ l, toJSON r = r) :
    guardarReservas l = l := by
  unfold guardarReservas
  induction l with
  | nil => rfl
  | cons a l ih =>
    rw [List.map_cons, h a (List.mem_cons_self a l),
      ih (fun r hr => h r (List.mem_cons_of_mem a hr))]

theorem guardarReservas_append (l : List Reserva) (n : Reserva)
    (h : ∀ r ∈ l, toJSON r = r) : guardarReservas (l ++ [n]) = l ++ [toJSON n] := by
  have := guardarReservas_eq_self h
  unfold guardarReservas at this ⊢
  rw [List.map_append, this]
  rfl

theorem guardarReservas_filter (l : List Reserva) (p : Reserva → Bool)
    (h : ∀ r ∈ l, toJSON r = r) : guardarReservas (l.filter p) = l.filter p :=
  guardarReservas_eq_self fun r hr => h r (List.mem_of_mem_filter hr)

theorem toJSON_nueva_estacionamiento (rt : Runtime) (now : Nat) (title : String)
    (inicio fin : Int) (e : JSVal) :
    (toJSON (nuevaReserva rt now title inicio fin e)).estacionamiento =
      jsonValor (.num (toNumber rt e)) := rfl

theorem jsonValor_num_cases (n : JSNum) :
    jsonValor (.num n) = .null ∨ ∃ q, n = .fin q ∧ jsonValor (.num n) = .num (.fin q) := by
  cases n with
  | nan => exact Or.inl rfl
  | inf b => exact Or.inl rfl
  | fin q => exact Or.inr ⟨q, rfl, rfl⟩

theorem delete_store (id : String) (db : List Reserva) (h : ∀ r ∈ db, toJSON r = r) :
    (deleteReservas id db).2 = db.filter (fun r => r.id != id) := by
  unfold deleteReservas leerReservas
  by_cases hlen : db.length = (db.filter fun r => r.id != id).length
  · rw [if_pos hlen]
    exact (List.filter_eq_self.mpr
      (List.filter_length_eq_length.mp hlen.symm)).symm
  · rw [if_neg hlen]
    exact guardarReservas_filter db _ h

/-- Every reachable file is a JSON file, every stored resource is `null` or a
finite number, and records whose resources are the same finite number do not cross. -/
theorem alcanzable_inv (rt : Runtime) (db : List Reserva) (h : Alcanzable rt db) :
    (∀ r ∈ db, toJSON r = r) ∧
    (∀ r ∈ db, r.estacionamiento = .null ∨ ∃ q, r.estacionamiento = .num (.fin q)) ∧
    db.Pairwise (fun a b => ∀ q, a.estacionamiento = .num (.fin q) →
      b.estacionamiento = .num (.fin q) → ¬ seCruzan a b) := by
  induction h with
  | vacio => exact ⟨by simp, by simp, List.Pairwise.nil⟩
  | post now body db _ ih =>
    obtain ⟨ih1, ih2, ih3⟩ := ih
    rcases post_casos rt now body db with ⟨_, hp⟩ | ⟨_, ⟨_, hp⟩ | ⟨inicio, fin, _, _, _, hp⟩⟩
    · rw [hp]; exact ⟨ih1, ih2, ih3⟩
    · rw [hp]; exact ⟨ih1, ih2, ih3⟩
    · rcases hp with ⟨_, hp⟩ | ⟨title, _, ⟨_, hp⟩ | ⟨hc, hp⟩⟩
      · rw [hp]; exact ⟨ih1, ih2, ih3⟩
      · rw [hp]; exact ⟨ih1, ih2, ih3⟩
      · rw [hp]
        simp only [guardarReservas_append db _ ih1]
        refine ⟨?_, ?_, ?_⟩
        · intro r hr
          rcases List.mem_append.mp hr with hr | hr
          · exact ih1 r hr
          · rw [List.mem_singleton.mp hr]; exact toJSON_idem _
        · intro r hr
          rcases List.mem_append.mp hr with hr | hr
          · exact ih2 r hr
          · rw [List.mem_singleton.mp hr, toJSON_nueva_estacionamiento]
            rcases jsonValor_num_cases (toNumber rt body.estacionamiento) with h | ⟨q, _, h⟩
            · exact Or.inl h
            · exact Or.inr ⟨q, h⟩
        · refine List.pairwise_append.mpr ⟨ih3, List.pairwise_singleton _ _, ?_⟩
          intro a ha b hb q haq hbq hx
          rw [List.mem_singleton.mp hb] at hbq hx
          rw [toJSON_nueva_estacionamiento] at hbq
          rcases jsonValor_num_cases (toNumber rt body.estacionamiento) with h | ⟨q2, hn, h⟩
          · rw [h] at hbq; cases hbq
          · rw [h] at hbq
            have hq : q2 = q := by injection hbq with h1; injection h1
            subst hq
            have hfalse := (hayCruce_eq_false_iff _ _).mp hc a ha
            apply hfalse
            refine ⟨?_, hx.2, hx.1⟩
            show strictEq a.estacionamiento (.num (toNumber rt body.estacionamiento)) = true
            rw [haq, hn]
            exact strictEq_fin q2
  | delete id db _ ih =>
    obtain ⟨ih1, ih2, ih3⟩ := ih
    rw [delete_store id db ih1]
    exact ⟨fun r hr => ih1 r (List.mem_of_mem_filter hr),
      fun r hr => ih2 r (List.mem_of_mem_filter hr),
      ih3.sublist (List.filter_sublist db)⟩

theorem alcanzable_of_post {rt : Runtime} {db : List Reserva} (now : Nat) (body : Body)
    (res : Respuesta) (db2 : List Reserva) (h : Alcanzable rt db)
    (hp : postReservas rt now body db = (res, db2)) : Alcanzable rt db2 := by
  have := Alcanzable.post now body db h
  rw [hp] at this
  exact this

theorem alcanzable_ana : Alcanzable ejemploRuntime [reservaAna] :=
  alcanzable_of_post 1704067200000
    (cuerpo " Ana " "2024-01-01T10:00:00Z" "2024-01-01T11:00:00Z" (.num (.fin 1)))
    (.creada reservaAna) [reservaAna] Alcanzable.vacio (by decide)

theorem alcanzable_ana_bea : Alcanzable ejemploRuntime [reservaAna, reservaBea] :=
  alcanzable_of_post 1704067200500
    (cuerpo "Bea" "2024-01-01T11:00:00Z" "2024-01-01T12:00:00Z" (.str "1"))
    (.creada reservaBea) [reservaAna, reservaBea] alcanzable_ana (by decide)

/-- The create handler answers 409 exactly for a complete request with a string
title and a valid schedule whose record crosses a stored one. -/
theorem post_409_iff (rt : Runtime) (now : Nat) (body : Body) (db : List Reserva) :
    (postReservas rt now body db).1.status = some 409 ↔
      ∃ title inicio fin, body.title = .str title ∧ title ≠ "" ∧
        truthy body.start = true ∧ truthy body.end_ = true ∧
        truthy body.estacionamiento = true ∧
        newDate rt body.start = some inicio ∧ newDate rt body.end_ = some fin ∧
        inicio < fin ∧
        hayCruce (nuevaReserva rt now title inicio fin body.estacionamiento) db = true := by
  constructor
  · intro h
    rcases post_casos rt now body db with
      ⟨_, hp⟩ | ⟨⟨h1, h2, h3, h4⟩, ⟨_, hp⟩ | ⟨inicio, fin, hi, hf, hlt, hp⟩⟩
    · rw [hp] at h; simp [Respuesta.status] at h
    · rw [hp] at h; simp [Respuesta.status] at h
    · rcases hp with ⟨_, hp⟩ | ⟨title, ht, ⟨hc, _⟩ | ⟨_, hp⟩⟩
      · rw [hp] at h; simp [Respuesta.status] at h
      · refine ⟨title, inicio, fin, ht, ?_, h2, h3, h4, hi, hf, hlt, hc⟩
        rw [ht] at h1
        simpa [truthy] using h1
      · rw [hp] at h; simp [Respuesta.status] at h
  · rintro ⟨title, inicio, fin, ht, ht2, h2, h3, h4, hi, hf, hlt, hc⟩
    rw [post_valido rt now body db title inicio fin ht ht2 h2 h3 h4 hi hf hlt, if_pos hc]
    rfl

/-! ## C1: no double booking -/

/-- C1, as amended: in every file reachable from the empty one by create and cancel
requests, two records at different positions whose `estacionamiento` is the same
value other than `null` (a finite number) have half-open intervals that do not
intersect. -/
theorem sin_cruces_con_numero (rt : Runtime) (db : List Reserva) (h : Alcanzable rt db) :
    db.Pairwise fun a b =>
      a.estacionamiento = b.estacionamiento → a.estacionamiento ≠ .null → ¬ seCruzan a b := by
  obtain ⟨_, h2, h3⟩ := alcanzable_inv rt db h
  refine List.Pairwise.imp_of_mem ?_ h3
  intro a b ha _ hab heq hnull
  rcases h2 a ha with h0 | ⟨q, hq⟩
  · exact absurd h0 hnull
  · exact hab q hq (heq ▸ hq)

/-- C1, witness: the file holding Ana (10:00 to 11:00) and Bea (11:00 to 12:00) on
spot 1 is reachable and satisfies the amended invariant. -/
theorem sin_cruces_con_numero_witness :
    Alcanzable ejemploRuntime [reservaAna, reservaBea] ∧
    [reservaAna, reservaBea].Pairwise fun a b =>
      a.estacionamiento = b.estacionamiento → a.estacionamiento ≠ .null → ¬ seCruzan a b :=
  ⟨alcanzable_ana_bea, sin_cruces_con_numero ejemploRuntime _ alcanzable_ana_bea⟩

/-- C1, counterexample: two create requests with `estacionamiento: "abc"` for the
same hour are both answered 201; `Number("abc")` is `NaN`, which the file keeps
as `null` and which `===` never matches.  The reachable file then holds two
records with the same `estacionamiento` and the same interval. -/
theorem doble_reserva_sin_numero :
    postReservas ejemploRuntime 1704067200000
        (cuerpo "Ana" "2024-01-01T10:00:00Z" "2024-01-01T11:00:00Z" (.str "abc")) [] =
      (.creada (reservaNula "1704067200000" "Ana"), [reservaNula "1704067200000" "Ana"]) ∧
    postReservas ejemploRuntime 1704067200001
        (cuerpo "Bea" "2024-01-01T10:00:00Z" "2024-01-01T11:00:00Z" (.str "abc"))
        [reservaNula "1704067200000" "Ana"] =
      (.creada (reservaNula "1704067200001" "Bea"),
        [reservaNula "1704067200000" "Ana", reservaNula "1704067200001" "Bea"]) ∧
    Alcanzable ejemploRuntime
      [reservaNula "1704067200000" "Ana", reservaNula "1704067200001" "Bea"] ∧
    ¬ SinCruces [reservaNula "1704067200000" "Ana", reservaNula "1704067200001" "Bea"] := by
  have h1 : postReservas ejemploRuntime 1704067200000
        (cuerpo "Ana" "2024-01-01T10:00:00Z" "2024-01-01T11:00:00Z" (.str "abc")) [] =
      (.creada (reservaNula "1704067200000" "Ana"), [reservaNula "1704067200000" "Ana"]) := by
    decide
  have h2 : postReservas ejemploRuntime 1704067200001
        (cuerpo "Bea" "2024-01-01T10:00:00Z" "2024-01-01T11:00:00Z" (.str "abc"))
        [reservaNula "1704067200000" "Ana"] =
      (.creada (reservaNula "1704067200001" "Bea"),
        [reservaNula "1704067200000" "Ana", reservaNula "1704067200001" "Bea"]) := by
    decide
  refine ⟨h1, h2, alcanzable_of_post _ _ _ _ (alcanzable_of_post _ _ _ _ Alcanzable.vacio h1) h2, ?_⟩
  unfold SinCruces
  intro h
  rw [List.pairwise_pair] at h
  exact h rfl (by decide)

/-! ## C2: what `hayCruce` computes -/

/-- C2: for every `nueva` and every list, `hayCruce` is true exactly when some record
of the list has its `estacionamiento` equal (`===`) to that of `nueva`, with
`nueva.start < r.end` and `nueva.end > r.start`; the answer does not depend on the
order of the list; it is false when every record has a different
`estacionamiento`; and a create request with all fields present, a string title
and a valid schedule is answered 409 `Horario ocupado` exactly when this holds
for the records of the file. -/
theorem hayCruce_spec (nueva : Reserva) (existentes : List Reserva) :
    (hayCruce nueva existentes = true ↔
      ∃ r ∈ existentes, strictEq r.estacionamiento nueva.estacionamiento = true ∧
        nueva.start < r.end_ ∧ nueva.end_ > r.start) ∧
    (∀ otras : List Reserva, otras.Perm existentes →
      hayCruce nueva otras = hayCruce nueva existentes) ∧
    ((∀ r ∈ existentes, r.estacionamiento ≠ nueva.estacionamiento) →
      hayCruce nueva existentes = false) ∧
    (∀ (rt : Runtime) (now : Nat) (body : Body) (title : String) (inicio fin : Int),
      body.title = .str title → title ≠ "" → truthy body.start = true →
      truthy body.end_ = true → truthy body.estacionamiento = true →
      newDate rt body.start = some inicio → newDate rt body.end_ = some fin →
      inicio < fin →
      (postReservas rt now body existentes =
          (.error 409 "Horario ocupado", existentes) ↔
        ∃ r ∈ existentes,
          strictEq r.estacionamiento (.num (toNumber rt body.estacionamiento)) = true ∧
          inicio < r.end_ ∧ fin > r.start)) := by
  refine ⟨hayCruce_eq_true_iff nueva existentes, ?_, ?_, ?_⟩
  · intro otras hperm
    rw [Bool.eq_iff_iff, hayCruce_eq_true_iff, hayCruce_eq_true_iff]
    constructor
    · rintro ⟨r, hr, h⟩
      exact ⟨r, hperm.mem_iff.mp hr, h⟩
    · rintro ⟨r, hr, h⟩
      exact ⟨r, hperm.mem_iff.mpr hr, h⟩
  · intro h
    rw [hayCruce_eq_false_iff]
    rintro r hr ⟨heq, _⟩
    exact h r hr (eq_of_strictEq heq)
  · intro rt now body title inicio fin ht ht2 h2 h3 h4 hi hf hlt
    have hx := hayCruce_eq_true_iff
      (nuevaReserva rt now title inicio fin body.estacionamiento) existentes
    rw [post_valido rt now body existentes title inicio fin ht ht2 h2 h3 h4 hi hf hlt]
    refine Iff.trans ?_ hx
    cases hayCruce (nuevaReserva rt now title inicio fin body.estacionamiento) existentes
    · simp
    · simp

/-! ## C3: touching is not overlapping -/

theorem hayCruce_nil (nueva : Reserva) : hayCruce nueva [] = false := rfl

theorem hayCruce_sin_tocar (nueva r : Reserva) (l1 l2 : List Reserva)
    (h : r.end_ = nueva.start ∨ r.start = nueva.end_) :
    hayCruce nueva (l1 ++ r :: l2) = hayCruce nueva (l1 ++ l2) := by
  have hr : (strictEq r.estacionamiento nueva.estacionamiento &&
      decide (nueva.start < r.end_) && decide (nueva.end_ > r.start)) = false := by
    rcases h with h | h <;> simp [h]
  simp only [hayCruce, List.any_append, List.any_cons, hr, Bool.false_or]

/-- C3: for all instants `s < T < e` and every (truthy) `estacionamiento`, starting
from the empty file, a create request for `[s, T)` followed by one for `[T, e)`,
and the same two in the other order, are all answered 201 and both records end
up in the file, in the order of creation.  More generally a stored record whose
end is the start of the new request, or whose start is its end, never causes a
409: `hayCruce` and the 409 answer are the same with that record in the file or
without it. -/
theorem tocar_no_es_cruzar (rt : Runtime) (s T e : Int) (estacionamiento : JSVal)
    (now1 now2 : Nat) (t1 t2 : String) (a1 b1 a2 b2 : JSVal)
    (hsT : s < T) (hTe : T < e) (hest : truthy estacionamiento = true)
    (ht1 : t1 ≠ "") (ht2 : t2 ≠ "")
    (ha1 : truthy a1 = true) (hb1 : truthy b1 = true)
    (ha2 : truthy a2 = true) (hb2 : truthy b2 = true)
    (hs : newDate rt a1 = some s) (hT1 : newDate rt b1 = some T)
    (hT2 : newDate rt a2 = some T) (he : newDate rt b2 = some e) :
    (postReservas rt now1 ⟨.str t1, a1, b1, estacionamiento⟩ [] =
        (.creada (toJSON (nuevaReserva rt now1 t1 s T estacionamiento)),
          [toJSON (nuevaReserva rt now1 t1 s T estacionamiento)]) ∧
      postReservas rt now2 ⟨.str t2, a2, b2, estacionamiento⟩
          [toJSON (nuevaReserva rt now1 t1 s T estacionamiento)] =
        (.creada (toJSON (nuevaReserva rt now2 t2 T e estacionamiento)),
          [toJSON (nuevaReserva rt now1 t1 s T estacionamiento),
            toJSON (nuevaReserva rt now2 t2 T e estacionamiento)])) ∧
    (postReservas rt now1 ⟨.str t2, a2, b2, estacionamiento⟩ [] =
        (.creada (toJSON (nuevaReserva rt now1 t2 T e estacionamiento)),
          [toJSON (nuevaReserva rt now1 t2 T e estacionamiento)]) ∧
      postReservas rt now2 ⟨.str t1, a1, b1, estacionamiento⟩
          [toJSON (nuevaReserva rt now1 t2 T e estacionamiento)] =
        (.creada (toJSON (nuevaReserva rt now2 t1 s T estacionamiento)),
          [toJSON (nuevaReserva rt now1 t2 T e estacionamiento),
            toJSON (nuevaReserva rt now2 t1 s T estacionamiento)])) ∧
    (∀ (nueva r : Reserva) (l1 l2 : List Reserva),
      r.end_ = nueva.start ∨ r.start = nueva.end_ →
      hayCruce nueva (l1 ++ r :: l2) = hayCruce nueva (l1 ++ l2)) ∧
    (∀ (now : Nat) (body : Body) (r : Reserva) (l1 l2 : List Reserva) (inicio fin : Int),
      newDate rt body.start = some inicio → newDate rt body.end_ = some fin →
      r.end_ = inicio ∨ r.start = fin →
      ((postReservas rt now body (l1 ++ r :: l2)).1.status = some 409 ↔
        (postReservas rt now body (l1 ++ l2)).1.status = some 409)) := by
  refine ⟨⟨?_, ?_⟩, ⟨?_, ?_⟩, hayCruce_sin_tocar, ?_⟩
  · rw [post_valido rt now1 ⟨.str t1, a1, b1, estacionamiento⟩ [] t1 s T rfl ht1 ha1 hb1 hest
      hs hT1 hsT, hayCruce_nil]
    rfl
  · rw [post_valido rt now2 ⟨.str t2, a2, b2, estacionamiento⟩ _ t2 T e rfl ht2 ha2 hb2 hest
      hT2 he hTe]
    have hc : hayCruce (nuevaReserva rt now2 t2 T e estacionamiento)
        [toJSON (nuevaReserva rt now1 t1 s T estacionamiento)] = false := by
      simp [hayCruce, nuevaReserva, toJSON]
    simp only [hc, guardarReservas, List.map_append, List.map_cons, List.map_nil, toJSON_idem]
    rfl
  · rw [post_valido rt now1 ⟨.str t2, a2, b2, estacionamiento⟩ [] t2 T e rfl ht2 ha2 hb2 hest
      hT2 he hTe, hayCruce_nil]
    rfl
  · rw [post_valido rt now2 ⟨.str t1, a1, b1, estacionamiento⟩ _ t1 s T rfl ht1 ha1 hb1 hest
      hs hT1 hsT]
    have hc : hayCruce (nuevaReserva rt now2 t1 s T estacionamiento)
        [toJSON (nuevaReserva rt now1 t2 T e estacionamiento)] = false := by
      simp [hayCruce, nuevaReserva, toJSON]
    simp only [hc, guardarReservas, List.map_append, List.map_cons, List.map_nil, toJSON_idem]
    rfl
  · intro now body r l1 l2 inicio fin hi hf htoca
    rw [post_409_iff, post_409_iff]
    constructor
    · rintro ⟨title, i, f, ht, ht2, h2, h3, h4, hi2, hf2, hlt, hc⟩
      refine ⟨title, i, f, ht, ht2, h2, h3, h4, hi2, hf2, hlt, ?_⟩
      rw [← hc]
      refine (hayCruce_sin_tocar _ r l1 l2 ?_).symm
      have e1 : i = inicio := Option.some.inj (hi2.symm.trans hi)
      have e2 : f = fin := Option.some.inj (hf2.symm.trans hf)
      subst e1 e2
      exact htoca
    · rintro ⟨title, i, f, ht, ht2, h2, h3, h4, hi2, hf2, hlt, hc⟩
      refine ⟨title, i, f, ht, ht2, h2, h3, h4, hi2, hf2, hlt, ?_⟩
      rw [← hc]
      refine hayCruce_sin_tocar _ r l1 l2 ?_
      have e1 : i = inicio := Option.some.inj (hi2.symm.trans hi)
      have e2 : f = fin := Option.some.inj (hf2.symm.trans hf)
      subst e1 e2
      exact htoca

/-- C3, witness: Ana books spot 1 from 10:00 to 11:00 and Bea from 11:00 to 12:00;
both requests are answered 201 and the file holds both records. -/
theorem tocar_no_es_cruzar_witness :
    postReservas ejemploRuntime 1704067200000
        ⟨.str "Ana", .str "2024-01-01T10:00:00Z", .str "2024-01-01T11:00:00Z", .num (.fin 1)⟩
        [] = (.creada reservaAna, [reservaAna]) ∧
    postReservas ejemploRuntime 1704067200500
        ⟨.str "Bea", .str "2024-01-01T11:00:00Z", .str "2024-01-01T12:00:00Z", .num (.fin 1)⟩
        [reservaAna] = (.creada reservaBea, [reservaAna, reservaBea]) :=
  (tocar_no_es_cruzar ejemploRuntime 1704103200000 1704106800000 1704110400000 (.num (.fin 1))
    1704067200000 1704067200500 "Ana" "Bea"
    (.str "2024-01-01T10:00:00Z") (.str "2024-01-01T11:00:00Z")
    (.str "2024-01-01T11:00:00Z") (.str "2024-01-01T12:00:00Z")
    (by decide) (by decide) (by decide) (by decide) (by decide) (by decide) (by decide)
    (by decide) (by decide) (by decide) (by decide) (by decide) (by decide)).1

/-! ## C4: a crossing request is rejected -/

theorem alcanzable_nula : Alcanzable ejemploRuntime [reservaNula "1704067200000" "Ana"] :=
  alcanzable_of_post 1704067200000
    (cuerpo "Ana" "2024-01-01T10:00:00Z" "2024-01-01T11:00:00Z" (.str "abc"))
    (.creada (reservaNula "1704067200000" "Ana")) [reservaNula "1704067200000" "Ana"]
    Alcanzable.vacio (by decide)

/-- C4, as amended: for every file containing a record `R` whose `estacionamiento` is a
number (not `null`), every create request with all fields present, a title that
is a string, a valid schedule `start < end`, an `estacionamiento` that `Number`
converts to the number stored in `R`, and
`max(start, R.start) < min(end, R.end)` is answered 409 `Horario ocupado` and the
file is left as it was. -/
theorem cruce_rechazado (rt : Runtime) (now : Nat) (body : Body) (db : List Reserva)
    (R : Reserva) (title : String) (inicio fin : Int)
    (hR : R ∈ db) (ht : body.title = .str title) (ht2 : title ≠ "")
    (h2 : truthy body.start = true) (h3 : truthy body.end_ = true)
    (h4 : truthy body.estacionamiento = true)
    (hi : newDate rt body.start = some inicio) (hf : newDate rt body.end_ = some fin)
    (hlt : inicio < fin)
    (hres : R.estacionamiento = .num (toNumber rt body.estacionamiento))
    (hnum : toNumber rt body.estacionamiento ≠ .nan)
    (hx : max inicio R.start < min fin R.end_) :
    postReservas rt now body db = (.error 409 "Horario ocupado", db) := by
  rw [post_valido rt now body db title inicio fin ht ht2 h2 h3 h4 hi hf hlt, if_pos]
  rw [hayCruce_eq_true_iff]
  refine ⟨R, hR, ?_, ?_, ?_⟩
  · show strictEq R.estacionamiento (.num (toNumber rt body.estacionamiento)) = true
    rw [hres]
    cases hn : toNumber rt body.estacionamiento with
    | nan => exact absurd hn hnum
    | inf b => simp [strictEq, JSNum.strictEq]
    | fin q => exact strictEq_fin q
  · exact lt_of_le_of_lt (le_max_left _ _) (lt_of_lt_of_le hx (min_le_right _ _))
  · exact lt_of_le_of_lt (le_max_right _ _) (lt_of_lt_of_le hx (min_le_left _ _))

/-- C4, witness: with Ana on spot 1 from 10:00 to 11:00, a request for spot `"1"` from
10:30 to 10:45 is answered 409. -/
theorem cruce_rechazado_witness :
    postReservas ejemploRuntime 1704067200900
        (cuerpo "Luis" "2024-01-01T10:30:00Z" "2024-01-01T10:45:00Z" (.str "1"))
        [reservaAna] = (.error 409 "Horario ocupado", [reservaAna]) :=
  cruce_rechazado ejemploRuntime 1704067200900
    (cuerpo "Luis" "2024-01-01T10:30:00Z" "2024-01-01T10:45:00Z" (.str "1"))
    [reservaAna] reservaAna "Luis" 1704105000000 1704105900000
    (by decide) rfl (by decide) (by decide) (by decide) (by decide) (by decide) (by decide)
    (by decide) (by decide) (by decide) (by decide)

/-- C4, counterexample: the reachable file holds the record `R` of Ana, created with
`estacionamiento: "abc"` for 10:00 to 11:00 and stored with resource `null`.  The
request of Bea for `estacionamiento: "abc"` from 10:30 to 10:45 has all four
fields present, a string title, a valid schedule, the resource of `R` (the same
request value, stored as the same `null`) and an interval inside that of `R`,
yet it is answered 201 and stored: `Number("abc")` is `NaN` and `null === NaN` is
false in `hayCruce`. -/
theorem cruce_sin_numero_aceptado :
    Alcanzable ejemploRuntime [reservaNula "1704067200000" "Ana"] ∧
    reservaNula "1704067200000" "Ana" ∈ [reservaNula "1704067200000" "Ana"] ∧
    (reservaNula "1704067200000" "Ana").start < (reservaNula "1704067200000" "Ana").end_ ∧
    truthy (.str "Bea") = true ∧ truthy (.str "2024-01-01T10:30:00Z") = true ∧
    truthy (.str "2024-01-01T10:45:00Z") = true ∧ truthy (.str "abc") = true ∧
    newDate ejemploRuntime (.str "2024-01-01T10:30:00Z") = some 1704105000000 ∧
    newDate ejemploRuntime (.str "2024-01-01T10:45:00Z") = some 1704105900000 ∧
    (1704105000000 : Int) < 1704105900000 ∧
    jsonValor (.num (toNumber ejemploRuntime (.str "abc"))) =
      (reservaNula "1704067200000" "Ana").estacionamiento ∧
    max 1704105000000 (reservaNula "1704067200000" "Ana").start <
      min 1704105900000 (reservaNula "1704067200000" "Ana").end_ ∧
    postReservas ejemploRuntime 1704067200900
        (cuerpo "Bea" "2024-01-01T10:30:00Z" "2024-01-01T10:45:00Z" (.str "abc"))
        [reservaNula "1704067200000" "Ana"] =
      (.creada
          { id := "1704067200900", title := "Bea", start := 1704105000000,
            end_ := 1704105900000, estacionamiento := .null },
        [reservaNula "1704067200000" "Ana",
          { id := "1704067200900", title := "Bea", start := 1704105000000,
            end_ := 1704105900000, estacionamiento := .null }]) ∧
    (postReservas ejemploRuntime 1704067200900
        (cuerpo "Bea" "2024-01-01T10:30:00Z" "2024-01-01T10:45:00Z" (.str "abc"))
        [reservaNula "1704067200000" "Ana"]).1.status = some 201 :=
  ⟨alcanzable_nula, by decide, by decide, by decide, by decide, by decide, by decide,
    by decide, by decide, by decide, by decide, by decide, by decide, by decide⟩

/-- The `TypeError` path of create: with Ana on spot 1 from 10:00 to 11:00 in the
file, the request `title: 5` for spot 1 from 10:30 to 10:45 passes both checks,
then `title.trim()` throws before the overlap test; no reply is sent and the
file is left as it was. -/
theorem titulo_numerico_lanza :
    truthy (.num (.fin 5)) = true ∧
    postReservas ejemploRuntime 1704067200900
        ⟨.num (.fin 5), .str "2024-01-01T10:30:00Z", .str "2024-01-01T10:45:00Z",
          .num (.fin 1)⟩ [reservaAna] = (.excepcion, [reservaAna]) := by
  decide

/-! ## C5: the overlap test is symmetric -/

/-- C5: for all records `A` and `B` (on the same resource or not) the conflict test
gives the same answer in both directions: `hayCruce(A, [B]) = hayCruce(B, [A])`. -/
theorem hayCruce_simetrico (A B : Reserva) : hayCruce A [B] = hayCruce B [A] := by
  rw [Bool.eq_iff_iff, hayCruce_eq_true_iff, hayCruce_eq_true_iff]
  simp only [List.mem_singleton, exists_eq_left, gt_iff_lt]
  rw [strictEq_comm]
  tauto

/-! ## C6: cancel -/

theorem delete_404 (id : String) (db : List Reserva) (h : ∀ r ∈ db, r.id ≠ id) :
    deleteReservas id db = (.error 404 "Reserva no encontrada", db) := by
  unfold deleteReservas leerReservas
  have hf : db.filter (fun r => r.id != id) = db :=
    List.filter_eq_self.mpr fun r hr => by simpa using h r hr
  simp only [hf, if_true]

theorem delete_204 (id : String) (db : List Reserva) (hjson : ∀ r ∈ db, toJSON r = r)
    (h : ∃ r ∈ db, r.id = id) :
    deleteReservas id db = (.sinContenido, db.filter fun r => r.id != id) := by
  unfold deleteReservas leerReservas
  have hlen : db.length ≠ (db.filter fun r => r.id != id).length := by
    intro hlen
    obtain ⟨r, hr, hid⟩ := h
    have := List.filter_length_eq_length.mp hlen.symm r hr
    simp [hid] at this
  simp only [hlen, if_false, guardarReservas_filter db _ hjson]

theorem filter_id_unico (id : String) (l1 l2 : List Reserva) (r : Reserva) (hid : r.id = id)
    (hu : (l1 ++ r :: l2).Pairwise fun a b => a.id ≠ b.id) :
    (l1 ++ r :: l2).filter (fun x => x.id != id) = l1 ++ l2 := by
  subst hid
  obtain ⟨_, h2, h3⟩ := List.pairwise_append.mp hu
  have h4 := (List.pairwise_cons.mp h2).1
  have e1 : l1.filter (fun x => x.id != r.id) = l1 :=
    List.filter_eq_self.mpr fun a ha => by
      have := h3 a ha r (List.mem_cons_self r l2)
      simpa using this
  have e2 : l2.filter (fun x => x.id != r.id) = l2 :=
    List.filter_eq_self.mpr fun b hb => by
      have := (h4 b hb).symm
      simpa using this
  have e3 : (r.id != r.id) = false := by simp
  rw [List.filter_append, List.filter_cons, e1, e2, e3]
  rfl

/-- C6, as amended: for every file reachable from the empty one by create and cancel
requests and every id, `DELETE /reservas/:id` answers 404 and leaves the file
unchanged if and only if no stored record has that id; otherwise it answers 204
and the file afterwards is the previous one without the records that have that
id (every one of them), the other records unchanged and in their order.  When no
two stored records share an id, that is the previous file with exactly that one
record removed. -/
theorem delete_por_id (rt : Runtime) (db : List Reserva) (id : String)
    (h : Alcanzable rt db) :
    (deleteReservas id db = (.error 404 "Reserva no encontrada", db) ↔
      ∀ r ∈ db, r.id ≠ id) ∧
    ((∃ r ∈ db, r.id = id) →
      deleteReservas id db = (.sinContenido, db.filter fun r => r.id != id)) ∧
    (∀ (l1 l2 : List Reserva) (r : Reserva), db = l1 ++ r :: l2 → r.id = id →
      (db.Pairwise fun a b => a.id ≠ b.id) →
      deleteReservas id db = (.sinContenido, l1 ++ l2)) := by
  have hjson := (alcanzable_inv rt db h).1
  refine ⟨⟨?_, delete_404 id db⟩, delete_204 id db hjson, ?_⟩
  · intro h404
    by_contra hne
    push_neg at hne
    rw [delete_204 id db hjson hne] at h404
    cases h404
  · intro l1 l2 r hdb hid hu
    rw [delete_204 id db hjson ⟨r, by rw [hdb]; simp, hid⟩]
    subst hdb
    rw [filter_id_unico id l1 l2 r hid hu]

/-- C6, witness: cancelling Ana in the reachable file of Ana and Bea. -/
theorem delete_por_id_witness :
    Alcanzable ejemploRuntime [reservaAna, reservaBea] ∧
    deleteReservas "1704067200000" [reservaAna, reservaBea] = (.sinContenido, [reservaBea]) :=
  ⟨alcanzable_ana_bea,
    (delete_por_id ejemploRuntime [reservaAna, reservaBea] "1704067200000"
      alcanzable_ana_bea).2.2 [] [reservaBea] reservaAna rfl rfl (by decide)⟩

/-- C6, counterexample: two create requests handled while `Date.now()` reads the same
millisecond, for spots 1 and 2, are both answered 201 and get the same id;
cancelling that id answers 204 and removes both records, not exactly one. -/
theorem cancelar_quita_dos :
    postReservas ejemploRuntime 1704067200000
        (cuerpo "Ana" "2024-01-01T10:00:00Z" "2024-01-01T11:00:00Z" (.num (.fin 1))) [] =
      (.creada reservaAna, [reservaAna]) ∧
    postReservas ejemploRuntime 1704067200000
        (cuerpo "Ana" "2024-01-01T10:00:00Z" "2024-01-01T11:00:00Z" (.num (.fin 2)))
        [reservaAna] =
      (.creada { reservaAna with estacionamiento := .num (.fin 2) },
        [reservaAna, { reservaAna with estacionamiento := .num (.fin 2) }]) ∧
    Alcanzable ejemploRuntime
      [reservaAna, { reservaAna with estacionamiento := .num (.fin 2) }] ∧
    deleteReservas "1704067200000"
        [reservaAna, { reservaAna with estacionamiento := .num (.fin 2) }] =
      (.sinContenido, []) ∧
    (deleteReservas "1704067200000"
        [reservaAna, { reservaAna with estacionamiento := .num (.fin 2) }]).2.length + 1 ≠
      [reservaAna, { reservaAna with estacionamiento := .num (.fin 2) }].length := by
  have h2 : postReservas ejemploRuntime 1704067200000
        (cuerpo "Ana" "2024-01-01T10:00:00Z" "2024-01-01T11:00:00Z" (.num (.fin 2)))
        [reservaAna] =
      (.creada { reservaAna with estacionamiento := .num (.fin 2) },
        [reservaAna, { reservaAna with estacionamiento := .num (.fin 2) }]) := by
    decide
  exact ⟨by decide, h2, alcanzable_of_post _ _ _ _ alcanzable_ana h2, by decide, by decide⟩

/-! ## C7: validation order of create -/

/-- C7: the first failing check decides the answer of create.  A request with any of
the four fields falsy (missing, `null`, the empty string among them) is answered
400 `Datos incompletos`, whatever its schedule and whatever the file holds; a
request with the four fields present whose `start` or `end` is not a valid date,
or whose start is not strictly before its end, is answered 400
`Horario inválido`, whatever the file holds; and a request answered 409 has
passed both checks. -/
theorem post_orden_validacion (rt : Runtime) (now : Nat) (body : Body) (db : List Reserva) :
    (truthy .undefined = false ∧ truthy .null = false ∧ truthy (.str "") = false) ∧
    ((truthy body.title = false ∨ truthy body.start = false ∨ truthy body.end_ = false ∨
        truthy body.estacionamiento = false) →
      postReservas rt now body db = (.error 400 "Datos incompletos", db)) ∧
    ((truthy body.title = true ∧ truthy body.start = true ∧ truthy body.end_ = true ∧
        truthy body.estacionamiento = true) →
      (newDate rt body.start = none ∨ newDate rt body.end_ = none ∨
        ∃ inicio fin, newDate rt body.start = some inicio ∧
          newDate rt body.end_ = some fin ∧ fin ≤ inicio) →
      postReservas rt now body db = (.error 400 "Horario inválido", db)) ∧
    ((postReservas rt now body db).1.status = some 409 →
      (truthy body.title = true ∧ truthy body.start = true ∧ truthy body.end_ = true ∧
        truthy body.estacionamiento = true) ∧
      ∃ inicio fin, newDate rt body.start = some inicio ∧
        newDate rt body.end_ = some fin ∧ inicio < fin) := by
  refine ⟨⟨rfl, rfl, by decide⟩, post_incompleto rt now body db, ?_, ?_⟩
  · rintro ⟨h1, h2, h3, h4⟩ h
    exact post_horario_invalido rt now body db h1 h2 h3 h4 h
  · intro h
    obtain ⟨title, inicio, fin, ht, ht2, h2, h3, h4, hi, hf, hlt, _⟩ :=
      (post_409_iff rt now body db).mp h
    exact ⟨⟨by rw [ht]; simpa [truthy] using ht2, h2, h3, h4⟩, inicio, fin, hi, hf, hlt⟩

/-! ## C8: a rejected create changes nothing -/

/-- C8: for every JSON file (a list of records without `NaN` or infinities, as
`JSON.parse` returns) and every create request: when the answer is 400 or 409 the
file afterwards is the file before; the file changes only when the answer is
201; and then it is the previous file with exactly the returned record appended
at the end. -/
theorem post_rechazado_no_cambia (rt : Runtime) (now : Nat) (body : Body)
    (db : List Reserva) (hdb : ∀ r ∈ db, toJSON r = r) :
    (((postReservas rt now body db).1.status = some 400 ∨
        (postReservas rt now body db).1.status = some 409) →
      (postReservas rt now body db).2 = db) ∧
    ((postReservas rt now body db).2 ≠ db →
      (postReservas rt now body db).1.status = some 201) ∧
    ((postReservas rt now body db).1.status = some 201 →
      ∃ nueva, postReservas rt now body db = (.creada nueva, db ++ [nueva])) := by
  rcases post_casos rt now body db with ⟨_, hp⟩ | ⟨_, ⟨_, hp⟩ | ⟨inicio, fin, _, _, _, hp⟩⟩
  · rw [hp]; simp [Respuesta.status]
  · rw [hp]; simp [Respuesta.status]
  · rcases hp with ⟨_, hp⟩ | ⟨title, _, ⟨_, hp⟩ | ⟨_, hp⟩⟩
    · rw [hp]; simp [Respuesta.status]
    · rw [hp]; simp [Respuesta.status]
    · rw [hp, guardarReservas_append db _ hdb]
      simp [Respuesta.status]

/-- C8, witness: with Ana in the file, the request of Bea (11:00 to 12:00) is answered
201 and her record is appended; the file was a JSON file. -/
theorem post_rechazado_no_cambia_witness :
    (∀ r ∈ [reservaAna], toJSON r = r) ∧
    ((postReservas ejemploRuntime 1704067200500
        (cuerpo "Bea" "2024-01-01T11:00:00Z" "2024-01-01T12:00:00Z" (.str "1"))
        [reservaAna]).1.status = some 201 →
      ∃ nueva, postReservas ejemploRuntime 1704067200500
        (cuerpo "Bea" "2024-01-01T11:00:00Z" "2024-01-01T12:00:00Z" (.str "1"))
        [reservaAna] = (.creada nueva, [reservaAna] ++ [nueva])) :=
  ⟨by decide,
    (post_rechazado_no_cambia ejemploRuntime 1704067200500
      (cuerpo "Bea" "2024-01-01T11:00:00Z" "2024-01-01T12:00:00Z" (.str "1"))
      [reservaAna] (by decide)).2.2⟩

/-! ## C9: the list filter -/

theorem strictEq_num_fin (v : JSVal) (q : ℚ) :
    strictEq v (.num (.fin q)) = decide (v = .num (.fin q)) := by
  rcases v with _ | _ | _ | n | _ | _ <;> try simp [strictEq]
  cases n <;> simp [JSNum.strictEq]

/-- C9, as amended: for every file and every value of the `estacionamiento` query
parameter, `GET /reservas` returns all stored records, in stored order, when the
parameter is absent or `Number` of it is `NaN` or 0 (non-numeric, empty, zero),
and for every other number, the negative ones included, returns exactly the
stored records whose `estacionamiento` equals (`===`) that number, in stored
order. -/
theorem get_filtro (rt : Runtime) (query : JSVal) (db : List Reserva) :
    (query = .undefined → getReservas rt query db = .lista db) ∧
    ((toNumber rt query = .nan ∨ toNumber rt query = .fin 0) →
      getReservas rt query db = .lista db) ∧
    (toNumber rt query ≠ .nan → toNumber rt query ≠ .fin 0 →
      getReservas rt query db =
        .lista (db.filter fun r => strictEq r.estacionamiento (.num (toNumber rt query)))) ∧
    (∀ q : ℚ, toNumber rt query = .fin q → q ≠ 0 →
      getReservas rt query db =
        .lista (db.filter fun r => decide (r.estacionamiento = .num (.fin q)))) := by
  have hall : (toNumber rt query = .nan ∨ toNumber rt query = .fin 0) →
      getReservas rt query db = .lista db := by
    intro h
    unfold getReservas leerReservas
    rcases h with h | h <;> simp [h, JSNum.truthy]
  have hfil : toNumber rt query ≠ .nan → toNumber rt query ≠ .fin 0 →
      getReservas rt query db =
        .lista (db.filter fun r => strictEq r.estacionamiento (.num (toNumber rt query))) := by
    intro h1 h2
    unfold getReservas leerReservas
    have ht : (toNumber rt query).truthy = true := by
      cases hn : toNumber rt query with
      | nan => exact absurd hn h1
      | inf b => rfl
      | fin q =>
        have : q ≠ 0 := fun hq => h2 (by rw [hn, hq])
        simpa [JSNum.truthy] using this
    simp only [ht, if_true]
  refine ⟨fun h => hall (Or.inl (by rw [h]; rfl)), hall, hfil, ?_⟩
  intro q hq hq0
  rw [hfil (by rw [hq]; simp) (by rw [hq]; simpa using hq0), hq]
  simp only [strictEq_num_fin]

/-- C9, counterexample: with the record of Ana (spot 1) in the file, the request
`GET /reservas?estacionamiento=-1`, a negative filter, returns the empty list
and not all stored records. -/
theorem filtro_negativo_vacio :
    Alcanzable ejemploRuntime [reservaAna] ∧
    toNumber ejemploRuntime (.str "-1") = .fin (-1) ∧
    getReservas ejemploRuntime (.str "-1") [reservaAna] = .lista [] ∧
    getReservas ejemploRuntime (.str "-1") [reservaAna] ≠ .lista [reservaAna] :=
  ⟨alcanzable_ana, by decide, by decide, by decide⟩

/-! ## C10: the resource of a created record -/

/-- C10, as amended: a create request whose `estacionamiento` is falsy (missing,
`null`, `false`, the number 0, the empty string) is answered 400
`Datos incompletos` and nothing is stored; every record that create stores and
returns with 201 comes from a truthy `estacionamiento` and has as resource
`Number(estacionamiento)` as JSON writes it: a finite number, which may be
negative or zero, or `null` when `Number` gives `NaN` or an infinity. -/
theorem post_recurso (rt : Runtime) (now : Nat) (body : Body) (db : List Reserva) :
    (truthy .undefined = false ∧ truthy .null = false ∧ truthy (.bool false) = false ∧
      truthy (.num (.fin 0)) = false ∧ truthy (.str "") = false) ∧
    (truthy body.estacionamiento = false →
      postReservas rt now body db = (.error 400 "Datos incompletos", db)) ∧
    (∀ r, (postReservas rt now body db).1 = .creada r →
      truthy body.estacionamiento = true ∧
      r.estacionamiento = jsonValor (.num (toNumber rt body.estacionamiento)) ∧
      (r.estacionamiento = .null ∨ ∃ q, r.estacionamiento = .num (.fin q)) ∧
      (postReservas rt now body db).2 = guardarReservas db ++ [r]) := by
  refine ⟨⟨rfl, rfl, rfl, by decide, by decide⟩,
    fun h => post_incompleto rt now body db (Or.inr (Or.inr (Or.inr h))), ?_⟩
  intro r hr
  rcases post_casos rt now body db with
    ⟨_, hp⟩ | ⟨⟨_, _, _, h4⟩, ⟨_, hp⟩ | ⟨inicio, fin, _, _, _, hp⟩⟩
  · rw [hp] at hr; cases hr
  · rw [hp] at hr; cases hr
  · rcases hp with ⟨_, hp⟩ | ⟨title, _, ⟨_, hp⟩ | ⟨_, hp⟩⟩
    · rw [hp] at hr; cases hr
    · rw [hp] at hr; cases hr
    · rw [hp] at hr ⊢
      have hr2 : toJSON (nuevaReserva rt now title inicio fin body.estacionamiento) = r := by
        injection hr
      subst hr2
      refine ⟨h4, rfl, ?_, ?_⟩
      · rw [toJSON_nueva_estacionamiento]
        rcases jsonValor_num_cases (toNumber rt body.estacionamiento) with h | ⟨q, _, h⟩
        · exact Or.inl h
        · exact Or.inr ⟨q, h⟩
      · simp [guardarReservas]

/-- C10, counterexample: create requests with `estacionamiento` -1, the string `0`
and the string `abc` are answered 201 and stored, with resource -1, 0 and
`null`: none is rejected with 400 and none of the three resources is a positive
number. -/
theorem recurso_no_positivo_creado :
    postReservas ejemploRuntime 1704067200000
        (cuerpo "Ana" "2024-01-01T10:00:00Z" "2024-01-01T11:00:00Z" (.num (.fin (-1)))) [] =
      (.creada { reservaAna with estacionamiento := .num (.fin (-1)) },
        [{ reservaAna with estacionamiento := .num (.fin (-1)) }]) ∧
    postReservas ejemploRuntime 1704067200000
        (cuerpo "Ana" "2024-01-01T10:00:00Z" "2024-01-01T11:00:00Z" (.str "0")) [] =
      (.creada { reservaAna with estacionamiento := .num (.fin 0) },
        [{ reservaAna with estacionamiento := .num (.fin 0) }]) ∧
    postReservas ejemploRuntime 1704067200000
        (cuerpo "Ana" "2024-01-01T10:00:00Z" "2024-01-01T11:00:00Z" (.str "abc")) [] =
      (.creada { reservaAna with estacionamiento := .null },
        [{ reservaAna with estacionamiento := .null }]) := by
  decide

end Estacionamiento
